import Mathlib

/-!
Shallow embedding of the ChartSense table-extraction pipeline.

The embedding covers the result-normalization and fallback-resilience core:
analyzer/utils/table_extractor.py (TableExtractor, names with te_),
analyzer/utils/huggingface_client.py (HuggingFaceClient, names with hf_),
and the retry and fallback control flow of the inference client.
Raw inference payloads are JSON-like dynamic values, modelled by Val.
Python code paths that raise and are swallowed by a surrounding
try/except are modelled with Except and explicit recovery values.
-/

namespace ChartSense

/-- JSON-like values: the payload shapes exchanged with the inference backends. -/
inductive Val where
  | vnull : Val
  | vbool : Bool → Val
  | vnum : ℚ → Val
  | vstr : String → Val
  | vlist : List Val → Val
  | vdict : List (String × Val) → Val

/-- Lookup in a Python dict modelled as an ordered association list
(keys of concrete payloads are unique, first match wins). -/
def dget : List (String × Val) → String → Option Val
  | [], _ => none
  | (k, v) :: rest, key => if k = key then some v else dget rest key

/-- Python key membership test on a dict. -/
def containsKey (kvs : List (String × Val)) (key : String) : Bool :=
  (dget kvs key).isSome

/-- Field access on a Val that is a dict; none on every other shape. -/
def Val.dget : Val → String → Option Val
  | .vdict kvs, key => ChartSense.dget kvs key
  | _, _ => none

/-- Substring search over character lists. -/
def strContainsAux (pat : List Char) : List Char → Bool
  | [] => pat.isEmpty
  | c :: rest => pat.isPrefixOf (c :: rest) || strContainsAux pat rest

/-- Python substring containment: pat in s. -/
def strContains (s pat : String) : Bool :=
  strContainsAux pat.toList s.toList

/-- Python str.lower over the character list (the labels compared in the
source are ASCII). -/
def strToLower (s : String) : String :=
  String.mk (s.toList.map Char.toLower)

/-- Python truthiness of a JSON value. -/
def Val.truthy : Val → Bool
  | .vnull => false
  | .vbool b => b
  | .vnum q => decide (q ≠ 0)
  | .vstr s => decide (s ≠ "")
  | .vlist xs => !xs.isEmpty
  | .vdict kvs => !kvs.isEmpty

/-- Python comparison v >= t against a float: numbers and booleans compare,
every other operand type raises TypeError (the error case). -/
def vge (v : Val) (t : ℚ) : Except Unit Bool :=
  match v with
  | .vnum q => .ok (decide (t ≤ q))
  | .vbool b => .ok (decide (t ≤ if b then (1 : ℚ) else 0))
  | _ => .error ()

/-- Python comparison v > t against a float; same typing rules as vge. -/
def vgt (v : Val) (t : ℚ) : Except Unit Bool :=
  match v with
  | .vnum q => .ok (decide (t < q))
  | .vbool b => .ok (decide (t < if b then (1 : ℚ) else 0))
  | _ => .error ()

/-- TableExtractor.confidence_threshold, table_extractor.py line 20. -/
def confidence_threshold : ℚ := mkRat 3 10

/-- table_extractor.py line 187: bounding box of a raw detection, with the
chained dict.get defaults. -/
def te_det_bbox (kvs : List (String × Val)) : Val :=
  (dget kvs "bounding_box").getD ((dget kvs "box").getD ((dget kvs "bbox").getD (.vdict [])))

/-- table_extractor.py line 188: confidence of a raw detection, default 0.0. -/
def te_det_score (kvs : List (String × Val)) : Val :=
  (dget kvs "confidence_score").getD ((dget kvs "score").getD ((dget kvs "confidence").getD (.vnum 0)))

/-- table_extractor.py line 189: label of a raw detection, default "table". -/
def te_det_label (kvs : List (String × Val)) : Val :=
  (dget kvs "label").getD ((dget kvs "class").getD (.vstr "table"))

/-- table_extractor.py lines 194-206: bounding box normalization.
Dict boxes read x1/xmin, y1/ymin, x2/xmax, y2/ymax with per-coordinate
defaults; list boxes of length at least 4 are truncated to the first 4;
everything else becomes the fixed page default box. -/
def te_normalize_bbox (bbox : Val) : Val :=
  match bbox with
  | .vdict b =>
      .vlist [(dget b "x1").getD ((dget b "xmin").getD (.vnum 0)),
              (dget b "y1").getD ((dget b "ymin").getD (.vnum 0)),
              (dget b "x2").getD ((dget b "xmax").getD (.vnum 100)),
              (dget b "y2").getD ((dget b "ymax").getD (.vnum 100))]
  | .vlist xs =>
      if 4 ≤ xs.length then .vlist (xs.take 4)
      else .vlist [.vnum 50, .vnum 50, .vnum 550, .vnum 200]
  | _ => .vlist [.vnum 50, .vnum 50, .vnum 550, .vnum 200]

/-- table_extractor.py lines 185-212: one iteration of the detection loop.
A non-dict element raises on the .get attribute access, as does a score of a
non-numeric type at the threshold comparison; both are the error case, which
the surrounding try/except turns into an early return. ok none is a filtered
out detection, ok some is an appended one. -/
def teDetStep (thr : ℚ) (d : Val) : Except Unit (Option Val) :=
  match d with
  | .vdict kvs =>
      match vge (te_det_score kvs) thr with
      | .error _ => .error ()
      | .ok false => .ok none
      | .ok true =>
          .ok (some (.vdict [("bounding_box", te_normalize_bbox (te_det_bbox kvs)),
                             ("confidence_score", te_det_score kvs),
                             ("label", te_det_label kvs)]))
  | _ => .error ()

/-- The detection loop of TableExtractor: on an exception the function
returns the detections accumulated so far (tables appended before the raise). -/
def teDetLoop (thr : ℚ) : List Val → List Val
  | [] => []
  | d :: rest =>
      match teDetStep thr d with
      | .error _ => []
      | .ok none => teDetLoop thr rest
      | .ok (some t) => t :: teDetLoop thr rest

/-- table_extractor.py lines 174-183: the shape dispatch of
_process_detection_results. A bare list is used directly; a dict is probed
for detections, then predictions, then results, defaulting to a one-element
list holding the dict itself; iterating a non-list value yields no appended
detections (dict and string iteration produce elements whose attribute access
raises, other types fail to iterate), so these are the none case. -/
def te_det_source (dr : Val) : Option (List Val) :=
  match dr with
  | .vlist xs => some xs
  | .vdict kvs =>
      match (dget kvs "detections").getD
            ((dget kvs "predictions").getD
             ((dget kvs "results").getD (.vlist [.vdict kvs]))) with
      | .vlist xs => some xs
      | _ => none
  | _ => none

/-- TableExtractor._process_detection_results, table_extractor.py lines 161-217. -/
def te_process_detection_results (thr : ℚ) (dr : Val) : List Val :=
  match te_det_source dr with
  | some xs => teDetLoop thr xs
  | none => []

/-- huggingface_client.py lines 195-203: bounding box normalization of the
client. Dict boxes read xmin/x1, ymin/y1, xmax/x2, ymax/y2; list boxes are
copied verbatim with no truncation; everything else becomes [0, 0, 100, 100]. -/
def hf_normalize_box (box : Val) : Val :=
  match box with
  | .vdict b =>
      .vlist [(dget b "xmin").getD ((dget b "x1").getD (.vnum 0)),
              (dget b "ymin").getD ((dget b "y1").getD (.vnum 0)),
              (dget b "xmax").getD ((dget b "x2").getD (.vnum 100)),
              (dget b "ymax").getD ((dget b "y2").getD (.vnum 100))]
  | .vlist xs => .vlist xs
  | _ => .vlist [.vnum 0, .vnum 0, .vnum 100, .vnum 100]

/-- huggingface_client.py line 205: confidence of a raw detection, default 0.5. -/
def hf_det_score (kvs : List (String × Val)) : Val :=
  (dget kvs "score").getD ((dget kvs "confidence").getD (.vnum (mkRat 1 2)))

/-- huggingface_client.py line 206: label of a raw detection, default "table". -/
def hf_det_label (kvs : List (String × Val)) : Val :=
  (dget kvs "label").getD (.vstr "table")

/-- Test whether a list element equals the given key string, for the Python
membership probe key in list. -/
def isKeyStr (pat : String) (v : Val) : Bool :=
  match v with
  | .vstr s => s = pat
  | _ => false

/-- huggingface_client.py lines 185-214: one iteration of the client
detection loop. Elements without a box or bbox key are skipped; the filter
keeps a detection when its lowercased label contains table, or else when its
score is strictly greater than 0.3. A non-string label raises at .lower(), a
non-numeric score raises at the comparison, string elements raise when
indexed after a successful substring probe, list elements raise when indexed
after a successful membership probe, and other element types raise at the
membership probe itself; every raise is the error case. -/
def hfDetStep (d : Val) : Except Unit (Option Val) :=
  match d with
  | .vdict kvs =>
      match (if containsKey kvs "box" then dget kvs "box" else dget kvs "bbox") with
      | none => .ok none
      | some box =>
          match hf_det_label kvs with
          | .vstr ls =>
              if strContains (strToLower ls) "table" then
                .ok (some (.vdict [("bounding_box", hf_normalize_box box),
                                   ("confidence_score", hf_det_score kvs),
                                   ("label", .vstr ls)]))
              else
                match vgt (hf_det_score kvs) (mkRat 3 10) with
                | .error _ => .error ()
                | .ok true =>
                    .ok (some (.vdict [("bounding_box", hf_normalize_box box),
                                       ("confidence_score", hf_det_score kvs),
                                       ("label", .vstr ls)]))
                | .ok false => .ok none
          | _ => .error ()
  | .vstr s => if strContains s "box" then .error () else .ok none
  | .vlist xs =>
      if xs.any (isKeyStr "box") || xs.any (isKeyStr "bbox") then .error () else .ok none
  | _ => .error ()

/-- The client detection loop: the surrounding try/except of
_normalize_detection_results discards all partial work on an exception, so
the none outcome stands for the whole call collapsing to empty detections. -/
def hfDetLoop : List Val → Option (List Val)
  | [] => some []
  | d :: rest =>
      match hfDetStep d with
      | .error _ => none
      | .ok none => hfDetLoop rest
      | .ok (some t) => Option.map (fun ts => t :: ts) (hfDetLoop rest)

/-- Wrap the loop outcome the way _normalize_detection_results returns it:
a dict with a detections key, empty on the exception path. -/
def hfDetMk : Option (List Val) → Val
  | some ds => .vdict [("detections", .vlist ds)]
  | none => .vdict [("detections", .vlist [])]

/-- HuggingFaceClient._normalize_detection_results, huggingface_client.py
lines 173-220. A bare list is iterated directly; a dict with a predictions
key iterates that value (a non-list there yields empty detections, by raising
or by skipping every produced element); any other dict is treated as a single
detection; a string is probed for the substring predictions (indexing raises
when found, otherwise it becomes a one-element list); other payload types
raise at the membership probe and collapse to empty detections. -/
def hf_normalize_detections (results : Val) : Val :=
  match results with
  | .vlist xs => hfDetMk (hfDetLoop xs)
  | .vdict kvs =>
      if containsKey kvs "predictions" then
        match dget kvs "predictions" with
        | some (.vlist ys) => hfDetMk (hfDetLoop ys)
        | _ => hfDetMk none
      else hfDetMk (hfDetLoop [.vdict kvs])
  | .vstr s =>
      if strContains s "predictions" then hfDetMk none
      else hfDetMk (hfDetLoop [.vstr s])
  | _ => hfDetMk none

/-- table_extractor.py lines 335-341: the constant sample dataset. -/
def te_sample_data : List (List String) :=
  [["Disability Category", "Participants", "Ballots Completed",
    "Ballots Incomplete/Terminated", "Results Accuracy", "Time to complete"],
   ["Blind", "5", "1", "4", "34.5%, n=1", "1199 sec, n=1"],
   ["Low Vision", "5", "2", "3", "98.3% n=2 (97.7%, n=3)", "1716 sec, n=3 (1934 sec, n=2)"],
   ["Dexterity", "5", "4", "1", "98.3%, n=4", "1672.1 sec, n=4"],
   ["Mobility", "3", "3", "0", "95.4%, n=3", "1416 sec, n=3"]]

/-- Helper shaping one sample row record of _create_sample_table_rows. -/
def teSampleRow (i : Nat) (y1 y2 : ℚ) (ty : String) : Val :=
  .vdict [("row_id", .vnum i), ("bbox", .vlist [.vnum 50, .vnum y1, .vnum 550, .vnum y2]),
          ("confidence", .vnum (mkRat 4 5)), ("type", .vstr ty)]

/-- TableExtractor._create_sample_table_rows, table_extractor.py lines 311-319. -/
def te_create_sample_table_rows : List Val :=
  [teSampleRow 0 50 80 "header", teSampleRow 1 80 110 "data", teSampleRow 2 110 140 "data",
   teSampleRow 3 140 170 "data", teSampleRow 4 170 200 "data"]

/-- Helper shaping one sample column record of _create_sample_table_columns. -/
def teSampleCol (i : Nat) (nm : String) (x1 x2 : ℚ) : Val :=
  .vdict [("column_id", .vnum i), ("name", .vstr nm),
          ("bbox", .vlist [.vnum x1, .vnum 50, .vnum x2, .vnum 200]), ("confidence", .vnum (mkRat 4 5))]

/-- TableExtractor._create_sample_table_columns, table_extractor.py lines 321-330. -/
def te_create_sample_table_columns : List Val :=
  [teSampleCol 0 "Disability Category" 50 150, teSampleCol 1 "Participants" 150 200,
   teSampleCol 2 "Ballots Completed" 200 250, teSampleCol 3 "Ballots Incomplete/Terminated" 250 400,
   teSampleCol 4 "Results Accuracy" 400 500, teSampleCol 5 "Time to complete" 500 550]

/-- table_extractor.py line 344: the per-column widths of the sample cells. -/
def column_widths : List ℚ := [100, 50, 50, 150, 100, 100]

/-- table_extractor.py line 351: width of a sample column, default 100. -/
def te_cell_width (ci : Nat) : ℚ :=
  (column_widths.get? ci).getD 100

/-- One sample cell record, table_extractor.py lines 353-361. -/
def teSampleCell (ri ci : Nat) (t : String) (x w : ℚ) : Val :=
  .vdict [("row", .vnum ri), ("column", .vnum ci), ("text", .vstr t),
          ("bbox", .vlist [.vnum x, .vnum (50 + (ri : ℚ) * 30),
                           .vnum (x + w), .vnum (50 + ((ri : ℚ) + 1) * 30)]),
          ("confidence", .vnum (mkRat 4 5)),
          ("type", .vstr (if ri = 0 then "header" else "data"))]

/-- Inner loop of _create_sample_table_cells, threading the x offset. -/
def teCellsGo (ri : Nat) : Nat → ℚ → List String → List Val
  | _, _, [] => []
  | ci, x, t :: rest =>
      teSampleCell ri ci t x (te_cell_width ci) :: teCellsGo ri (ci + 1) (x + te_cell_width ci) rest

/-- TableExtractor._create_sample_table_cells, table_extractor.py lines 332-365. -/
def te_create_sample_table_cells : List Val :=
  (te_sample_data.enum.map (fun p => teCellsGo p.1 0 50 p.2)).flatten

/-- The table_data of a fallback table, table_extractor.py lines 275-281. -/
def te_fallback_table_data : Val :=
  .vdict [("rows", .vlist te_create_sample_table_rows),
          ("columns", .vlist te_create_sample_table_columns),
          ("cells", .vlist te_create_sample_table_cells),
          ("fallback_used", .vbool true),
          ("note", .vstr "This table was created using fallback detection since ML models were unavailable")]

/-- TableExtractor._create_fallback_tables_for_page, table_extractor.py
lines 263-289. -/
def te_create_fallback_tables_for_page (page_num : Nat) : List Val :=
  [.vdict [("page_number", .vnum page_num), ("table_index", .vnum 0),
           ("bounding_box", .vlist [.vnum 50, .vnum 50, .vnum 550, .vnum 200]),
           ("confidence_score", .vnum (mkRat 3 4)),
           ("table_data", te_fallback_table_data)]]

/-- The fallback return of _process_structure_results, table_extractor.py
lines 244-251. -/
def te_structure_fallback (raw : Val) : Val :=
  .vdict [("raw_results", raw),
          ("rows", .vlist te_create_sample_table_rows),
          ("columns", .vlist te_create_sample_table_columns),
          ("cells", .vlist te_create_sample_table_cells),
          ("note", .vstr "Table structure created using fallback method")]

/-- TableExtractor._process_structure_results, table_extractor.py lines
219-261. A dict is unwrapped under table, then data, passed through when it
has a rows or columns key, and otherwise falls to the fallback shape; a
non-empty list recurses on its first element only; every other shape
(including the empty list, which is falsy) falls to the fallback shape. -/
def te_process_structure_results : Val → Val
  | .vdict kvs =>
      if containsKey kvs "table" then (dget kvs "table").getD .vnull
      else if containsKey kvs "data" then (dget kvs "data").getD .vnull
      else if containsKey kvs "rows" || containsKey kvs "columns" then .vdict kvs
      else te_structure_fallback (.vdict kvs)
  | .vlist (x :: _) => te_process_structure_results x
  | v => te_structure_fallback v

/-- huggingface_client.py lines 285-291: the constant sample dataset of the
client (the same literal as the extractor sample, inlined a second time in
the source). -/
def hf_sample_data : List (List String) :=
  [["Disability Category", "Participants", "Ballots Completed",
    "Ballots Incomplete/Terminated", "Results Accuracy", "Time to complete"],
   ["Blind", "5", "1", "4", "34.5%, n=1", "1199 sec, n=1"],
   ["Low Vision", "5", "2", "3", "98.3% n=2 (97.7%, n=3)", "1716 sec, n=3 (1934 sec, n=2)"],
   ["Dexterity", "5", "4", "1", "98.3%, n=4", "1672.1 sec, n=4"],
   ["Mobility", "3", "3", "0", "95.4%, n=3", "1416 sec, n=3"]]

/-- Dummy rows of _extract_rows_from_result, huggingface_client.py lines 252-258. -/
def hf_dummy_rows : List Val :=
  (List.range 3).map (fun i =>
    .vdict [("row_id", .vnum i),
            ("bbox", .vlist [.vnum 0, .vnum ((i : ℚ) * 30), .vnum 200, .vnum (((i : ℚ) + 1) * 30)]),
            ("confidence", .vnum (mkRat 1 2))])

/-- Column names of _extract_columns_from_result, huggingface_client.py line 268. -/
def hf_column_names : List String :=
  ["Disability Category", "Participants", "Ballots Completed",
   "Ballots Incomplete/Terminated", "Results Accuracy", "Time to complete"]

/-- Dummy columns of _extract_columns_from_result, huggingface_client.py lines 267-275. -/
def hf_dummy_columns : List Val :=
  hf_column_names.enum.map (fun p =>
    .vdict [("column_id", .vnum p.1), ("name", .vstr p.2),
            ("bbox", .vlist [.vnum ((p.1 : ℚ) * 100), .vnum 0,
                             .vnum (((p.1 : ℚ) + 1) * 100), .vnum 200]),
            ("confidence", .vnum (mkRat 1 2))])

/-- Dummy cells of _extract_cells_from_result, huggingface_client.py lines 284-301. -/
def hf_dummy_cells : List Val :=
  ((hf_sample_data.enum.map (fun pr =>
    pr.2.enum.map (fun pc =>
      Val.vdict [("row", .vnum pr.1), ("column", .vnum pc.1), ("text", .vstr pc.2),
                 ("bbox", .vlist [.vnum ((pc.1 : ℚ) * 100), .vnum ((pr.1 : ℚ) * 30),
                                  .vnum (((pc.1 : ℚ) + 1) * 100), .vnum (((pr.1 : ℚ) + 1) * 30)]),
                 ("confidence", .vnum (mkRat 7 10))]))).flatten)

/-- HuggingFaceClient._extract_rows_from_result, lines 245-259. -/
def hf_extract_rows (kvs : List (String × Val)) : Val :=
  (dget kvs "rows").getD (.vlist hf_dummy_rows)

/-- HuggingFaceClient._extract_columns_from_result, lines 261-276. -/
def hf_extract_columns (kvs : List (String × Val)) : Val :=
  (dget kvs "columns").getD (.vlist hf_dummy_columns)

/-- HuggingFaceClient._extract_cells_from_result, lines 278-303. -/
def hf_extract_cells (kvs : List (String × Val)) : Val :=
  (dget kvs "cells").getD (.vlist hf_dummy_cells)

/-- One row record of _create_fallback_structure. -/
def hfFbRow (i : Nat) (y1 y2 : ℚ) : Val :=
  .vdict [("row_id", .vnum i), ("bbox", .vlist [.vnum 0, .vnum y1, .vnum 600, .vnum y2]),
          ("confidence", .vnum (mkRat 4 5))]

/-- One column record of _create_fallback_structure. -/
def hfFbCol (i : Nat) (nm : String) (x1 x2 : ℚ) : Val :=
  .vdict [("column_id", .vnum i), ("name", .vstr nm),
          ("bbox", .vlist [.vnum x1, .vnum 0, .vnum x2, .vnum 150]), ("confidence", .vnum (mkRat 4 5))]

/-- One cell record of _create_fallback_structure. -/
def hfFbCell (r c : Nat) (t : String) (x1 y1 x2 y2 : ℚ) : Val :=
  .vdict [("row", .vnum r), ("column", .vnum c), ("text", .vstr t),
          ("bbox", .vlist [.vnum x1, .vnum y1, .vnum x2, .vnum y2]), ("confidence", .vnum (mkRat 4 5))]

/-- HuggingFaceClient._create_fallback_structure, huggingface_client.py
lines 305-366, transcribed literally. -/
def hf_fallback_structure : Val :=
  .vdict [("rows", .vlist [hfFbRow 0 0 30, hfFbRow 1 30 60, hfFbRow 2 60 90,
                           hfFbRow 3 90 120, hfFbRow 4 120 150]),
          ("columns", .vlist [hfFbCol 0 "Disability Category" 0 100,
                              hfFbCol 1 "Participants" 100 150,
                              hfFbCol 2 "Ballots Completed" 150 200,
                              hfFbCol 3 "Ballots Incomplete/Terminated" 200 350,
                              hfFbCol 4 "Results Accuracy" 350 450,
                              hfFbCol 5 "Time to complete" 450 600]),
          ("cells", .vlist [hfFbCell 0 0 "Disability Category" 0 0 100 30,
                            hfFbCell 0 1 "Participants" 100 0 150 30,
                            hfFbCell 0 2 "Ballots Completed" 150 0 200 30,
                            hfFbCell 0 3 "Ballots Incomplete/Terminated" 200 0 350 30,
                            hfFbCell 0 4 "Results Accuracy" 350 0 450 30,
                            hfFbCell 0 5 "Time to complete" 450 0 600 30,
                            hfFbCell 1 0 "Blind" 0 30 100 60,
                            hfFbCell 1 1 "5" 100 30 150 60,
                            hfFbCell 1 2 "1" 150 30 200 60,
                            hfFbCell 1 3 "4" 200 30 350 60,
                            hfFbCell 1 4 "34.5%, n=1" 350 30 450 60,
                            hfFbCell 1 5 "1199 sec, n=1" 450 30 600 60,
                            hfFbCell 2 0 "Low Vision" 0 60 100 90,
                            hfFbCell 2 1 "5" 100 60 150 90,
                            hfFbCell 2 2 "2" 150 60 200 90,
                            hfFbCell 2 3 "3" 200 60 350 90,
                            hfFbCell 2 4 "98.3% n=2 (97.7%, n=3)" 350 60 450 90,
                            hfFbCell 2 5 "1716 sec, n=3 (1934 sec, n=2)" 450 60 600 90,
                            hfFbCell 3 0 "Dexterity" 0 90 100 120,
                            hfFbCell 3 1 "5" 100 90 150 120,
                            hfFbCell 3 2 "4" 150 90 200 120,
                            hfFbCell 3 3 "1" 200 90 350 120,
                            hfFbCell 3 4 "98.3%, n=4" 350 90 450 120,
                            hfFbCell 3 5 "1672.1 sec, n=4" 450 90 600 120,
                            hfFbCell 4 0 "Mobility" 0 120 100 150,
                            hfFbCell 4 1 "3" 100 120 150 150,
                            hfFbCell 4 2 "3" 150 120 200 150,
                            hfFbCell 4 3 "0" 200 120 350 150,
                            hfFbCell 4 4 "95.4%, n=3" 350 120 450 150,
                            hfFbCell 4 5 "1416 sec, n=3" 450 120 600 150]),
          ("model_used", .vstr "fallback"),
          ("note", .vstr "Using fallback structure as models were not available")]

/-- HuggingFaceClient._normalize_structure_results, huggingface_client.py
lines 222-243. A list payload keeps only its first element (an empty list
gives an empty dict); a dict result is rebuilt from its rows, columns and
cells with dummy fallbacks; a non-dict result raises at the key probes or at
.get and the except clause returns the full fallback structure. -/
def hf_normalize_structure (results : Val) (model_name : String) : Val :=
  match (match results with
         | .vlist xs => xs.headD (.vdict [])
         | r => r) with
  | .vdict kvs =>
      .vdict [("rows", hf_extract_rows kvs),
              ("columns", hf_extract_columns kvs),
              ("cells", hf_extract_cells kvs),
              ("confidence", (dget kvs "score").getD (.vnum (mkRat 1 2))),
              ("model_used", .vstr model_name)]
  | _ => hf_fallback_structure

/-- Outcome of one HTTP POST to a backend: a 200 with a parsed JSON body, a
bare status code, a timeout, or a transport error. -/
inductive HttpResponse where
  | success : Val → HttpResponse
  | status : Nat → HttpResponse
  | timeout : HttpResponse
  | transportErr : HttpResponse

/-- The retry loop of HuggingFaceClient.query_model, huggingface_client.py
lines 36-107, with fuel counting the remaining attempts. 200 returns the
body; 503 and 429 wait and retry, falling through to a None return when the
attempts run out; 404 returns None immediately; any other status, a timeout
or a transport error retries and raises on the last attempt. -/
def queryGo (resp : Nat → HttpResponse) : Nat → Nat → Except String (Option Val)
  | _, 0 => .ok none
  | attempt, fuel + 1 =>
      match resp attempt with
      | .success body => .ok (some body)
      | .status 503 => queryGo resp (attempt + 1) fuel
      | .status 429 => queryGo resp (attempt + 1) fuel
      | .status 404 => .ok none
      | .status _ =>
          if fuel = 0 then .error "API request failed" else queryGo resp (attempt + 1) fuel
      | .timeout =>
          if fuel = 0 then .error "Request timed out" else queryGo resp (attempt + 1) fuel
      | .transportErr =>
          if fuel = 0 then .error "Request failed" else queryGo resp (attempt + 1) fuel

/-- HuggingFaceClient.query_model with its max_retries bound. -/
def query_model (resp : Nat → HttpResponse) (max_retries : Nat) : Except String (Option Val) :=
  queryGo resp 0 max_retries

/-- The detection backend priority list, huggingface_client.py lines 120-124. -/
def detection_models : List String :=
  ["TahaDouaji/detr-doc-table-detection", "microsoft/table-transformer-detection",
   "facebook/detr-resnet-50"]

/-- The structure backend priority list, huggingface_client.py lines 152-155. -/
def structure_models : List String :=
  ["microsoft/table-transformer-structure-recognition",
   "microsoft/table-transformer-structure-recognition-v1.1-all"]

/-- The model loop of detect_tables, huggingface_client.py lines 126-140.
resp gives each backend its per-attempt responses. An exception from the
query is caught and the next model is tried; a falsy result also moves on;
a truthy result is normalized and returned. -/
def detect_tables_go (resp : String → Nat → HttpResponse) : List String → Option Val
  | [] => none
  | m :: rest =>
      match query_model (resp m) 3 with
      | .error _ => detect_tables_go resp rest
      | .ok none => detect_tables_go resp rest
      | .ok (some body) =>
          if body.truthy then some (hf_normalize_detections body)
          else detect_tables_go resp rest

/-- HuggingFaceClient.detect_tables, huggingface_client.py lines 109-140. -/
def detect_tables (resp : String → Nat → HttpResponse) : Option Val :=
  detect_tables_go resp detection_models

/-- The model loop of recognize_table_structure, huggingface_client.py lines
157-171: when every model is exhausted the call returns the fallback
structure rather than None. -/
def recognize_table_structure_go (resp : String → Nat → HttpResponse) :
    List String → Option Val
  | [] => some hf_fallback_structure
  | m :: rest =>
      match query_model (resp m) 3 with
      | .error _ => recognize_table_structure_go resp rest
      | .ok none => recognize_table_structure_go resp rest
      | .ok (some body) =>
          if body.truthy then some (hf_normalize_structure body m)
          else recognize_table_structure_go resp rest

/-- HuggingFaceClient.recognize_table_structure, huggingface_client.py
lines 142-171. -/
def recognize_table_structure (resp : String → Nat → HttpResponse) : Option Val :=
  recognize_table_structure_go resp structure_models

/-- HuggingFaceClient.detect_tables_with_ocr_fallback, huggingface_client.py
lines 368-382: the constant mock detection payload. -/
def detect_tables_with_ocr_fallback : Val :=
  .vdict [("detections",
           .vlist [.vdict [("bounding_box", .vlist [.vnum 50, .vnum 50, .vnum 550, .vnum 200]),
                           ("confidence_score", .vnum (mkRat 3 4)),
                           ("label", .vstr "table")]])]

/-- Environment of one page run: what the inference client returns for the
detection call and for the structure call made for the detection at each
index. -/
structure PageCtx where
  detectResult : Option Val
  structureResult : Nat → Option Val

/-- Assembly of one table record, table_extractor.py lines 119-141: a falsy
structure result is replaced by the client fallback structure, the structure
payload is processed, and the record copies the detected bounding box and
confidence (default 0.75). The detections reaching this point come from
_process_detection_results and always carry both keys, so the direct
bounding_box indexing of line 135 cannot raise here. -/
def te_assemble_one (ctx : PageCtx) (page_num idx : Nat) (det : Val) : Val :=
  let structure_results : Val :=
    match ctx.structureResult idx with
    | some v => if v.truthy then v else hf_fallback_structure
    | none => hf_fallback_structure
  Val.vdict [("page_number", .vnum page_num), ("table_index", .vnum idx),
             ("bounding_box", (det.dget "bounding_box").getD .vnull),
             ("confidence_score", (det.dget "confidence_score").getD (.vnum (mkRat 3 4))),
             ("table_data", te_process_structure_results structure_results)]

/-- The per-detection loop with the running table_index of enumerate. -/
def te_assemble_tables (ctx : PageCtx) (page_num : Nat) : Nat → List Val → List Val
  | _, [] => []
  | idx, det :: rest =>
      te_assemble_one ctx page_num idx det :: te_assemble_tables ctx page_num (idx + 1) rest

/-- The body of _extract_tables_from_page after the detection payload is
fixed, table_extractor.py lines 106-159: empty processed detections fall
back to the one synthesized page table when fallback is enabled. -/
def te_page_tables_core (use_fallback : Bool) (thr : ℚ) (ctx : PageCtx)
    (page_num : Nat) (dr : Val) : List Val :=
  let tables_detected := te_process_detection_results thr dr
  if tables_detected.isEmpty then
    if use_fallback then te_create_fallback_tables_for_page page_num else []
  else te_assemble_tables ctx page_num 0 tables_detected

/-- TableExtractor._extract_tables_from_page, table_extractor.py lines
80-159: a falsy detection result is replaced by the OCR mock payload when
fallback is enabled, and otherwise the page yields no tables. -/
def te_extract_tables_from_page (use_fallback : Bool) (thr : ℚ) (ctx : PageCtx)
    (page_num : Nat) : List Val :=
  match ctx.detectResult with
  | some v =>
      if v.truthy then te_page_tables_core use_fallback thr ctx page_num v
      else if use_fallback then
        te_page_tables_core use_fallback thr ctx page_num detect_tables_with_ocr_fallback
      else []
  | none =>
      if use_fallback then
        te_page_tables_core use_fallback thr ctx page_num detect_tables_with_ocr_fallback
      else []

/-- The pages_processed counter of extract_tables_from_pdf, table_extractor
lines 47-68: a page whose processing returns counts once, a page whose
processing raises counts only when fallback is enabled. -/
def te_pages_processed (use_fallback : Bool) : List (Nat × Except String (List Val)) → Nat
  | [] => 0
  | (_, .ok _) :: rest => te_pages_processed use_fallback rest + 1
  | (_, .error _) :: rest =>
      te_pages_processed use_fallback rest + (if use_fallback then 1 else 0)

/-- The accumulated table list of extract_tables_from_pdf: per-page tables in
page order, with synthesized fallback tables for raising pages when fallback
is enabled. -/
def te_all_tables (use_fallback : Bool) : List (Nat × Except String (List Val)) → List Val
  | [] => []
  | (_, .ok ts) :: rest => ts ++ te_all_tables use_fallback rest
  | (p, .error _) :: rest =>
      (if use_fallback then te_create_fallback_tables_for_page p else [])
        ++ te_all_tables use_fallback rest

/-- TableExtractor.extract_tables_from_pdf, table_extractor.py lines 23-78,
over the rendered pages paired with the outcome of processing each page (a
raised exception or a returned table list). An empty page list raises; any
other input assembles the result dict. -/
def te_extract_tables_from_pdf (use_fallback : Bool)
    (pages : List (Nat × Except String (List Val))) (pdf_path : String) :
    Except String Val :=
  if pages.isEmpty then .error "No pages could be processed from the PDF"
  else
    .ok (.vdict [("total_pages", .vnum pages.length),
                 ("pages_processed", .vnum (te_pages_processed use_fallback pages)),
                 ("tables", .vlist (te_all_tables use_fallback pages)),
                 ("pdf_path", .vstr pdf_path)])

end ChartSense

namespace ChartSense

/-- Every bounding box leaving te_normalize_bbox is a list of exactly 4 values. -/
theorem te_normalize_bbox_shape (b : Val) :
    ∃ xs : List Val, te_normalize_bbox b = Val.vlist xs ∧ xs.length = 4 := by
  cases b with
  | vdict kvs => exact ⟨_, rfl, rfl⟩
  | vlist xs =>
      by_cases h : 4 ≤ xs.length
      · refine ⟨xs.take 4, ?_, ?_⟩
        · simp [te_normalize_bbox, h]
        · simp [List.length_take, Nat.min_eq_left h]
      · exact ⟨[.vnum 50, .vnum 50, .vnum 550, .vnum 200], by simp [te_normalize_bbox, h], rfl⟩
  | vnull => exact ⟨_, rfl, rfl⟩
  | vbool b => exact ⟨_, rfl, rfl⟩
  | vnum q => exact ⟨_, rfl, rfl⟩
  | vstr s => exact ⟨_, rfl, rfl⟩

/-- Inversion of a successful detection step: the appended record always has
the three canonical fields and a score that passed the threshold test. -/
theorem teDetStep_some (thr : ℚ) (x t : Val) (h : teDetStep thr x = Except.ok (some t)) :
    ∃ kvs, t = Val.vdict [("bounding_box", te_normalize_bbox (te_det_bbox kvs)),
                          ("confidence_score", te_det_score kvs),
                          ("label", te_det_label kvs)] ∧
      vge (te_det_score kvs) thr = Except.ok true := by
  cases x with
  | vdict kvs =>
      refine ⟨kvs, ?_⟩
      have hred : teDetStep thr (Val.vdict kvs)
          = match vge (te_det_score kvs) thr with
            | .error _ => .error ()
            | .ok false => .ok none
            | .ok true =>
                .ok (some (.vdict [("bounding_box", te_normalize_bbox (te_det_bbox kvs)),
                                   ("confidence_score", te_det_score kvs),
                                   ("label", te_det_label kvs)])) := rfl
      rw [hred] at h
      cases hv : vge (te_det_score kvs) thr with
      | error e => rw [hv] at h; cases h
      | ok b =>
          cases b with
          | false => rw [hv] at h; cases h
          | true =>
              rw [hv] at h
              simp only [Except.ok.injEq, Option.some.injEq] at h
              exact ⟨h.symm, rfl⟩
  | vnull => simp [teDetStep] at h
  | vbool b => simp [teDetStep] at h
  | vnum q => simp [teDetStep] at h
  | vstr s => simp [teDetStep] at h
  | vlist xs => simp [teDetStep] at h

/-- Every record in the output of the detection loop has the canonical shape
and passed the threshold test. -/
theorem teDetLoop_mem (thr : ℚ) (xs : List Val) (d : Val) (hd : d ∈ teDetLoop thr xs) :
    ∃ kvs, d = Val.vdict [("bounding_box", te_normalize_bbox (te_det_bbox kvs)),
                          ("confidence_score", te_det_score kvs),
                          ("label", te_det_label kvs)] ∧
      vge (te_det_score kvs) thr = Except.ok true := by
  induction xs with
  | nil => simp [teDetLoop] at hd
  | cons x rest ih =>
      have hunf : teDetLoop thr (x :: rest)
          = match teDetStep thr x with
            | .error _ => []
            | .ok none => teDetLoop thr rest
            | .ok (some t) => t :: teDetLoop thr rest := rfl
      rw [hunf] at hd
      cases hstep : teDetStep thr x with
      | error e => rw [hstep] at hd; simp at hd
      | ok o =>
          cases o with
          | none => rw [hstep] at hd; exact ih hd
          | some t =>
              rw [hstep] at hd
              rcases List.mem_cons.mp hd with h1 | h2
              · obtain ⟨kvs, ht, hv⟩ := teDetStep_some thr x t hstep
                exact ⟨kvs, h1.trans ht, hv⟩
              · exact ih h2

/-- Every record the extractor normalization emits comes from the loop on
some element list. -/
theorem te_process_mem (thr : ℚ) (dr d : Val)
    (hd : d ∈ te_process_detection_results thr dr) : ∃ xs, d ∈ teDetLoop thr xs := by
  unfold te_process_detection_results at hd
  cases hsrc : te_det_source dr with
  | none => rw [hsrc] at hd; simp at hd
  | some xs => rw [hsrc] at hd; exact ⟨xs, hd⟩

end ChartSense

namespace ChartSense

/-- C1 (amended): when every configured backend answers every attempt with
HTTP 404, the table detection call returns absent and never raises, while
the table structure recognition call also never raises but returns the
built-in fallback structure instead of absent. -/
theorem C1_amended (resp : String → Nat → HttpResponse)
    (h : ∀ m n, resp m n = HttpResponse.status 404) :
    detect_tables resp = none ∧
    recognize_table_structure resp = some hf_fallback_structure := by
  have hq : ∀ m, query_model (resp m) 3 = Except.ok none := by
    intro m
    show queryGo (resp m) 0 3 = Except.ok none
    rw [queryGo, h m 0]
  constructor
  · simp [detect_tables, detect_tables_go, detection_models, hq]
  · simp [recognize_table_structure, recognize_table_structure_go, structure_models, hq]

/-- Witness for C1_amended at the constant all-404 response function. -/
theorem C1_amended_witness :
    detect_tables (fun _ _ => HttpResponse.status 404) = none ∧
    recognize_table_structure (fun _ _ => HttpResponse.status 404)
      = some hf_fallback_structure :=
  C1_amended (fun _ _ => HttpResponse.status 404) (fun _ _ => rfl)

/-- C1 counterexample: under all-404 backends the structure recognition
capability returns the fallback structure, which is not absent, refuting the
claim that both capabilities return absent. -/
theorem C1_counterexample :
    recognize_table_structure (fun _ _ => HttpResponse.status 404)
        = some hf_fallback_structure ∧
    some hf_fallback_structure ≠ (none : Option Val) :=
  ⟨rfl, by simp⟩

/-- C7: both structure normalizations of a non-empty list payload depend
only on the first element; the remaining elements are dropped. -/
theorem C7_first_element_only (x : Val) (rest : List Val) (m : String) :
    te_process_structure_results (Val.vlist (x :: rest))
        = te_process_structure_results (Val.vlist [x]) ∧
    hf_normalize_structure (Val.vlist (x :: rest)) m
        = hf_normalize_structure (Val.vlist [x]) m := by
  constructor
  · simp [te_process_structure_results]
  · rfl

/-- C8: a payload already in canonical rows/columns/cells shape passes
through the extractor normalization unchanged, and the client normalization
reproduces exactly its rows, columns and cells. -/
theorem C8_canonical_identity (r c ce : Val) (m : String) :
    te_process_structure_results (Val.vdict [("rows", r), ("columns", c), ("cells", ce)])
        = Val.vdict [("rows", r), ("columns", c), ("cells", ce)] ∧
    Val.dget (hf_normalize_structure
        (Val.vdict [("rows", r), ("columns", c), ("cells", ce)]) m) "rows" = some r ∧
    Val.dget (hf_normalize_structure
        (Val.vdict [("rows", r), ("columns", c), ("cells", ce)]) m) "columns" = some c ∧
    Val.dget (hf_normalize_structure
        (Val.vdict [("rows", r), ("columns", c), ("cells", ce)]) m) "cells" = some ce := by
  refine ⟨?_, rfl, rfl, rfl⟩
  simp [te_process_structure_results, containsKey, dget]

/-- C9: a dict bounding box under the xmin/ymin/xmax/ymax naming and one
under the x1/y1/x2/y2 naming with the same values normalize to the same
ordered 4-tuple, in both the extractor and the client normalization. -/
theorem C9_box_alias (a b c d : Val) :
    te_normalize_bbox (Val.vdict [("xmin", a), ("ymin", b), ("xmax", c), ("ymax", d)])
        = Val.vlist [a, b, c, d] ∧
    te_normalize_bbox (Val.vdict [("x1", a), ("y1", b), ("x2", c), ("y2", d)])
        = Val.vlist [a, b, c, d] ∧
    hf_normalize_box (Val.vdict [("xmin", a), ("ymin", b), ("xmax", c), ("ymax", d)])
        = Val.vlist [a, b, c, d] ∧
    hf_normalize_box (Val.vdict [("x1", a), ("y1", b), ("x2", c), ("y2", d)])
        = Val.vlist [a, b, c, d] := by
  refine ⟨?_, ?_, ?_, ?_⟩ <;> simp [te_normalize_bbox, hf_normalize_box, dget]

end ChartSense

namespace ChartSense

/-- C2 (amended): in the extractor normalization every emitted detection
passed the at-least-threshold test on its stored confidence, and a raw
detection whose score equals the threshold exactly is retained; the client
normalization instead keeps a detection when its label contains table or its
score is strictly greater than 0.3. -/
theorem C2_amended (thr : ℚ) (payload : Val) :
    (∀ d ∈ te_process_detection_results thr payload,
        ∃ s, Val.dget d "confidence_score" = some s ∧ vge s thr = Except.ok true) ∧
    (∀ box lbl : Val,
        te_process_detection_results thr
            (Val.vlist [Val.vdict [("box", box), ("score", Val.vnum thr), ("label", lbl)]])
          = [Val.vdict [("bounding_box", te_normalize_bbox box),
                        ("confidence_score", Val.vnum thr), ("label", lbl)]]) := by
  constructor
  · intro d hd
    obtain ⟨xs, hmem⟩ := te_process_mem thr payload d hd
    obtain ⟨kvs, hshape, hscore⟩ := teDetLoop_mem thr xs d hmem
    subst hshape
    exact ⟨te_det_score kvs, by simp [Val.dget, dget], hscore⟩
  · intro box lbl
    have hdec : decide (thr ≤ thr) = true := decide_eq_true (le_refl thr)
    simp [te_process_detection_results, te_det_source, teDetLoop, teDetStep,
          te_det_score, te_det_bbox, te_det_label, vge, dget, hdec]

/-- Witness for C2_amended: the boundary detection at score 0.3 with
threshold 0.3 is retained and its stored score passes the test. -/
theorem C2_amended_witness :
    ∃ s, Val.dget (Val.vdict
        [("bounding_box", te_normalize_bbox (Val.vlist [Val.vnum 0, Val.vnum 0, Val.vnum 10, Val.vnum 10])),
         ("confidence_score", Val.vnum confidence_threshold),
         ("label", Val.vstr "figure")]) "confidence_score" = some s ∧
      vge s confidence_threshold = Except.ok true := by
  have h := C2_amended confidence_threshold
      (Val.vlist [Val.vdict [("box", Val.vlist [Val.vnum 0, Val.vnum 0, Val.vnum 10, Val.vnum 10]),
                             ("score", Val.vnum confidence_threshold),
                             ("label", Val.vstr "figure")]])
  refine h.1 _ ?_
  rw [h.2 (Val.vlist [Val.vnum 0, Val.vnum 0, Val.vnum 10, Val.vnum 10]) (Val.vstr "figure")]
  exact List.mem_singleton.mpr rfl

/-- C2 counterexample: in the client normalization a detection whose score
equals the 0.3 threshold exactly but whose label lacks table is dropped, and
a detection strictly below the threshold whose label contains table is
retained, refuting both halves of the claim for that normalization. -/
theorem C2_counterexample :
    hf_normalize_detections (Val.vlist
        [Val.vdict [("box", Val.vlist [Val.vnum 0, Val.vnum 0, Val.vnum 10, Val.vnum 10]),
                    ("score", Val.vnum confidence_threshold), ("label", Val.vstr "chart")]])
      = Val.vdict [("detections", Val.vlist [])] ∧
    hf_normalize_detections (Val.vlist
        [Val.vdict [("box", Val.vlist [Val.vnum 0, Val.vnum 0, Val.vnum 10, Val.vnum 10]),
                    ("score", Val.vnum (mkRat 1 10)), ("label", Val.vstr "table")]])
      = Val.vdict [("detections", Val.vlist
          [Val.vdict [("bounding_box", Val.vlist [Val.vnum 0, Val.vnum 0, Val.vnum 10, Val.vnum 10]),
                      ("confidence_score", Val.vnum (mkRat 1 10)), ("label", Val.vstr "table")]])] ∧
    mkRat 1 10 < confidence_threshold := by
  refine ⟨rfl, rfl, by decide⟩

/-- C4 (amended): the extractor normalization is shape-invariant across a
bare list, a detections dict and a predictions dict; the client
normalization is shape-invariant across a bare list and a predictions dict,
while a detections dict is not a recognized wrapper there. -/
theorem C4_amended (thr : ℚ) (xs : List Val) :
    te_process_detection_results thr (Val.vlist xs)
        = te_process_detection_results thr (Val.vdict [("detections", Val.vlist xs)]) ∧
    te_process_detection_results thr (Val.vlist xs)
        = te_process_detection_results thr (Val.vdict [("predictions", Val.vlist xs)]) ∧
    hf_normalize_detections (Val.vlist xs)
        = hf_normalize_detections (Val.vdict [("predictions", Val.vlist xs)]) := by
  refine ⟨?_, ?_, ?_⟩ <;>
    simp [te_process_detection_results, te_det_source, hf_normalize_detections,
          containsKey, dget]

/-- C4 counterexample: one well-formed detection presented as a bare list is
normalized by the client, but the same element under a detections key yields
an empty detection sequence, so the two shapes do not agree. -/
theorem C4_counterexample :
    hf_normalize_detections (Val.vlist
        [Val.vdict [("box", Val.vlist [Val.vnum 0, Val.vnum 0, Val.vnum 10, Val.vnum 10]),
                    ("score", Val.vnum (mkRat 9 10)), ("label", Val.vstr "table")]])
      = Val.vdict [("detections", Val.vlist
          [Val.vdict [("bounding_box", Val.vlist [Val.vnum 0, Val.vnum 0, Val.vnum 10, Val.vnum 10]),
                      ("confidence_score", Val.vnum (mkRat 9 10)), ("label", Val.vstr "table")]])] ∧
    hf_normalize_detections (Val.vdict [("detections", Val.vlist
        [Val.vdict [("box", Val.vlist [Val.vnum 0, Val.vnum 0, Val.vnum 10, Val.vnum 10]),
                    ("score", Val.vnum (mkRat 9 10)), ("label", Val.vstr "table")]])])
      = Val.vdict [("detections", Val.vlist [])] ∧
    hf_normalize_detections (Val.vlist
        [Val.vdict [("box", Val.vlist [Val.vnum 0, Val.vnum 0, Val.vnum 10, Val.vnum 10]),
                    ("score", Val.vnum (mkRat 9 10)), ("label", Val.vstr "table")]])
      ≠ hf_normalize_detections (Val.vdict [("detections", Val.vlist
        [Val.vdict [("box", Val.vlist [Val.vnum 0, Val.vnum 0, Val.vnum 10, Val.vnum 10]),
                    ("score", Val.vnum (mkRat 9 10)), ("label", Val.vstr "table")]])]) := by
  refine ⟨rfl, rfl, ?_⟩
  intro hcontra
  have h1 : hf_normalize_detections (Val.vlist
        [Val.vdict [("box", Val.vlist [Val.vnum 0, Val.vnum 0, Val.vnum 10, Val.vnum 10]),
                    ("score", Val.vnum (mkRat 9 10)), ("label", Val.vstr "table")]])
      = Val.vdict [("detections", Val.vlist
          [Val.vdict [("bounding_box", Val.vlist [Val.vnum 0, Val.vnum 0, Val.vnum 10, Val.vnum 10]),
                      ("confidence_score", Val.vnum (mkRat 9 10)), ("label", Val.vstr "table")]])] := rfl
  have h2 : hf_normalize_detections (Val.vdict [("detections", Val.vlist
        [Val.vdict [("box", Val.vlist [Val.vnum 0, Val.vnum 0, Val.vnum 10, Val.vnum 10]),
                    ("score", Val.vnum (mkRat 9 10)), ("label", Val.vstr "table")]])])
      = Val.vdict [("detections", Val.vlist [])] := rfl
  rw [h1, h2] at hcontra
  simp at hcontra

/-- C5 (amended): with no confidence under any recognized key the extractor
normalization defaults the confidence to 0.0 while the client normalization
defaults it to 0.5; with no label under any recognized key both default the
label to table. -/
theorem C5_amended (kvs : List (String × Val))
    (h1 : dget kvs "confidence_score" = none) (h2 : dget kvs "score" = none)
    (h3 : dget kvs "confidence" = none) (h4 : dget kvs "label" = none)
    (h5 : dget kvs "class" = none) :
    te_det_score kvs = Val.vnum 0 ∧ te_det_label kvs = Val.vstr "table" ∧
    hf_det_score kvs = Val.vnum (mkRat 1 2) ∧ hf_det_label kvs = Val.vstr "table" := by
  simp [te_det_score, te_det_label, hf_det_score, hf_det_label, h1, h2, h3, h4, h5]

/-- Witness for C5_amended at the empty raw detection dict. -/
theorem C5_amended_witness :
    te_det_score [] = Val.vnum 0 ∧ te_det_label [] = Val.vstr "table" ∧
    hf_det_score [] = Val.vnum (mkRat 1 2) ∧ hf_det_label [] = Val.vstr "table" :=
  C5_amended [] rfl rfl rfl rfl rfl

/-- C5 counterexample: a raw detection carrying only a box is normalized by
the client with confidence 0.5, not the claimed 0.0. -/
theorem C5_counterexample :
    hf_normalize_detections (Val.vlist
        [Val.vdict [("box", Val.vlist [Val.vnum 0, Val.vnum 0, Val.vnum 10, Val.vnum 10])]])
      = Val.vdict [("detections", Val.vlist
          [Val.vdict [("bounding_box", Val.vlist [Val.vnum 0, Val.vnum 0, Val.vnum 10, Val.vnum 10]),
                      ("confidence_score", Val.vnum (mkRat 1 2)), ("label", Val.vstr "table")]])] ∧
    mkRat 1 2 ≠ 0 := by
  refine ⟨rfl, by decide⟩

end ChartSense

namespace ChartSense

/-- C3: when fallback synthesis is enabled and processing the truthy
detection payload of a page yields no tables, the page emits exactly one
synthesized TableRecord: table_index 0, the placeholder box
[50, 50, 550, 200], placeholder confidence 0.75, the constant sample
structure with 5 rows, 6 columns and 30 cells, and fallback_used true. -/
theorem C3_fallback_page (ctx : PageCtx) (page_num : Nat) (thr : ℚ) (dr : Val)
    (hd : ctx.detectResult = some dr) (ht : dr.truthy = true)
    (hp : te_process_detection_results thr dr = []) :
    te_extract_tables_from_page true thr ctx page_num
        = [Val.vdict [("page_number", Val.vnum page_num), ("table_index", Val.vnum 0),
                      ("bounding_box", Val.vlist [Val.vnum 50, Val.vnum 50, Val.vnum 550, Val.vnum 200]),
                      ("confidence_score", Val.vnum (mkRat 3 4)),
                      ("table_data", te_fallback_table_data)]] ∧
    Val.dget te_fallback_table_data "fallback_used" = some (Val.vbool true) ∧
    Val.dget te_fallback_table_data "rows" = some (Val.vlist te_create_sample_table_rows) ∧
    te_create_sample_table_rows.length = 5 ∧
    Val.dget te_fallback_table_data "columns" = some (Val.vlist te_create_sample_table_columns) ∧
    te_create_sample_table_columns.length = 6 ∧
    Val.dget te_fallback_table_data "cells" = some (Val.vlist te_create_sample_table_cells) ∧
    te_create_sample_table_cells.length = 30 := by
  refine ⟨?_, rfl, rfl, rfl, rfl, rfl, rfl, rfl⟩
  simp [te_extract_tables_from_page, hd, ht, te_page_tables_core, hp,
        te_create_fallback_tables_for_page]

/-- Witness for C3_fallback_page: a truthy detection payload whose
detections list is empty, on page 7. -/
theorem C3_fallback_page_witness :
    te_extract_tables_from_page true confidence_threshold
        (PageCtx.mk (some (Val.vdict [("detections", Val.vlist [])])) (fun _ => none)) 7
      = [Val.vdict [("page_number", Val.vnum 7), ("table_index", Val.vnum 0),
                    ("bounding_box", Val.vlist [Val.vnum 50, Val.vnum 50, Val.vnum 550, Val.vnum 200]),
                    ("confidence_score", Val.vnum (mkRat 3 4)),
                    ("table_data", te_fallback_table_data)]] := by
  have h := C3_fallback_page
      (PageCtx.mk (some (Val.vdict [("detections", Val.vlist [])])) (fun _ => none)) 7
      confidence_threshold (Val.vdict [("detections", Val.vlist [])]) rfl rfl rfl
  exact h.1

/-- C6: over pages that all processed without raising, the run returns an
outcome whose total_pages and pages_processed both equal the page count; and
the page fold is compositional over list append, so a failing prefix never
changes how the remaining pages are processed. -/
theorem C6_pages (ufb : Bool) (path : String) (pages : List (Nat × Except String (List Val)))
    (hne : pages ≠ []) (hok : ∀ p ∈ pages, ∃ ts, p.2 = Except.ok ts) :
    te_extract_tables_from_pdf ufb pages path
      = Except.ok (Val.vdict [("total_pages", Val.vnum pages.length),
                              ("pages_processed", Val.vnum pages.length),
                              ("tables", Val.vlist (te_all_tables ufb pages)),
                              ("pdf_path", Val.vstr path)]) ∧
    (∀ l1 l2 : List (Nat × Except String (List Val)),
        te_pages_processed ufb (l1 ++ l2)
            = te_pages_processed ufb l1 + te_pages_processed ufb l2 ∧
        te_all_tables ufb (l1 ++ l2) = te_all_tables ufb l1 ++ te_all_tables ufb l2) := by
  constructor
  · have hcount : te_pages_processed ufb pages = pages.length := by
      clear hne
      induction pages with
      | nil => rfl
      | cons p rest ih =>
          obtain ⟨n, e⟩ := p
          obtain ⟨ts, hts⟩ := hok (n, e) (List.mem_cons_self _ _)
          simp only at hts
          subst hts
          simp [te_pages_processed,
                ih (fun q hq => hok q (List.mem_cons_of_mem _ hq))]
    have hemp : pages.isEmpty = false := by
      cases pages with
      | nil => exact absurd rfl hne
      | cons a l => rfl
    rw [te_extract_tables_from_pdf, hemp, hcount]
    simp
  · intro l1 l2
    constructor
    · induction l1 with
      | nil => simp [te_pages_processed]
      | cons p rest ih =>
          obtain ⟨n, e⟩ := p
          cases e with
          | ok ts => simp [te_pages_processed, ih]; omega
          | error s => simp [te_pages_processed, ih]; omega
    · induction l1 with
      | nil => simp [te_all_tables]
      | cons p rest ih =>
          obtain ⟨n, e⟩ := p
          cases e with
          | ok ts => simp [te_all_tables, ih]
          | error s => simp [te_all_tables, ih]

/-- Witness for C6_pages: a two page document whose pages both processed. -/
theorem C6_pages_witness :
    te_extract_tables_from_pdf true
        [(1, Except.ok ([] : List Val)), (2, Except.ok ([] : List Val))] "doc.pdf"
      = Except.ok (Val.vdict [("total_pages", Val.vnum 2),
                              ("pages_processed", Val.vnum 2),
                              ("tables", Val.vlist []),
                              ("pdf_path", Val.vstr "doc.pdf")]) := by
  have h := C6_pages true "doc.pdf"
      [(1, Except.ok ([] : List Val)), (2, Except.ok ([] : List Val))]
      (by simp)
      (by
        intro p hp
        rcases List.mem_cons.mp hp with h1 | h2
        · subst h1; exact ⟨[], rfl⟩
        · rw [List.mem_singleton] at h2; subst h2; exact ⟨[], rfl⟩)
  simpa [te_all_tables] using h.1

/-- C10 (amended): every detection emitted by the extractor normalization
carries a bounding box that is a list of exactly 4 values; the client
normalization does not have this invariant because it copies list shaped
boxes verbatim. -/
theorem C10_amended (thr : ℚ) (payload : Val) :
    ∀ d ∈ te_process_detection_results thr payload,
      ∃ bs : List Val, Val.dget d "bounding_box" = some (Val.vlist bs) ∧ bs.length = 4 := by
  intro d hd
  obtain ⟨xs, hmem⟩ := te_process_mem thr payload d hd
  obtain ⟨kvs, hshape, _⟩ := teDetLoop_mem thr xs d hmem
  subst hshape
  obtain ⟨bs, hb, hlen⟩ := te_normalize_bbox_shape (te_det_bbox kvs)
  exact ⟨bs, by simp [Val.dget, dget, hb], hlen⟩

/-- Witness for C10_amended: a 5 element list box is truncated to 4 values
by the extractor normalization. -/
theorem C10_amended_witness :
    ∃ bs : List Val, Val.dget (Val.vdict
        [("bounding_box", te_normalize_bbox
            (Val.vlist [Val.vnum 1, Val.vnum 2, Val.vnum 3, Val.vnum 4, Val.vnum 5])),
         ("confidence_score", Val.vnum (mkRat 9 10)),
         ("label", Val.vstr "table")]) "bounding_box" = some (Val.vlist bs) ∧
      bs.length = 4 := by
  refine C10_amended confidence_threshold
      (Val.vlist [Val.vdict
        [("box", Val.vlist [Val.vnum 1, Val.vnum 2, Val.vnum 3, Val.vnum 4, Val.vnum 5]),
         ("score", Val.vnum (mkRat 9 10)), ("label", Val.vstr "table")]]) _ ?_
  exact List.mem_singleton.mpr rfl

/-- C10 counterexample: the client normalization copies a 5 element list box
verbatim, so the emitted detection has a bounding box of 5 values, not 4. -/
theorem C10_counterexample :
    hf_normalize_detections (Val.vlist [Val.vdict
        [("box", Val.vlist [Val.vnum 1, Val.vnum 2, Val.vnum 3, Val.vnum 4, Val.vnum 5]),
         ("score", Val.vnum (mkRat 9 10)), ("label", Val.vstr "table")]])
      = Val.vdict [("detections", Val.vlist [Val.vdict
          [("bounding_box", Val.vlist [Val.vnum 1, Val.vnum 2, Val.vnum 3, Val.vnum 4, Val.vnum 5]),
           ("confidence_score", Val.vnum (mkRat 9 10)), ("label", Val.vstr "table")]])] ∧
    [Val.vnum 1, Val.vnum 2, Val.vnum 3, Val.vnum 4, Val.vnum 5].length ≠ 4 := by
  refine ⟨rfl, by simp⟩

end ChartSense
